import Mathlib

/-!
Shallow embedding of the authentication core of the pokemon-showdown
login server (src/user.ts, src/actions.ts, src/server.ts, src/utils.ts),
with theorems checking the specification's claims about it.

Machine integers are modelled as `Int` (JS numbers in the relevant ranges
are exact integers); the JS `NaN` produced by `parseInt` is modelled as
`Option.none`.  External crypto (bcrypt, RSA signing, Google id-token
verification) is passed in as explicit function arguments, since the code
treats those as opaque oracles.  JS string primitives are modelled over
`List Char` with structural recursion so every definition evaluates.
-/

namespace LoginServer

/-- Whether one character list begins with another (JS `startsWith` on the
underlying characters). -/
def listIsPrefixOf : List Char → List Char → Bool
  | [], _ => true
  | _ :: _, [] => false
  | a :: as, b :: bs => a == b && listIsPrefixOf as bs

/-- Whether `needle` occurs as a contiguous run inside `hay`. -/
def listIsInfixOf (needle : List Char) : List Char → Bool
  | [] => needle.isEmpty
  | c :: t => listIsPrefixOf needle (c :: t) || listIsInfixOf needle t

/-- JS `s.startsWith(pre)`. -/
def jsStartsWith (s pre : String) : Bool :=
  listIsPrefixOf pre.toList s.toList

/-- JS `s.endsWith(suf)`. -/
def jsEndsWith (s suf : String) : Bool :=
  listIsPrefixOf suf.toList.reverse s.toList.reverse

/-- JS `haystack.includes(needle)` on strings: substring containment. -/
def strIncludes (hay needle : String) : Bool :=
  listIsInfixOf needle.toList hay.toList

/-- Splitter for JS `String.prototype.split` with a non-empty separator;
`fuel` bounds the recursion by the input length. -/
def splitFuel (sep : List Char) : Nat → List Char → List Char → List (List Char)
  | 0, cur, _ => [cur.reverse]
  | _ + 1, cur, [] => [cur.reverse]
  | fuel + 1, cur, c :: rest =>
    if listIsPrefixOf sep (c :: rest) then
      cur.reverse :: splitFuel sep fuel [] (List.drop (sep.length - 1) rest)
    else
      splitFuel sep fuel (c :: cur) rest

/-- JS `s.split(sep)` for a non-empty separator string. -/
def jsSplit (s sep : String) : List String :=
  (splitFuel sep.toList (s.toList.length + 1) [] s.toList).map List.asString

/-- ASCII lowercasing of one character. -/
def lowerAscii (c : Char) : Char :=
  if decide ('A' ≤ c) && decide (c ≤ 'Z') then Char.ofNat (c.toNat + 32) else c

/-- Canonical userid (`toID` in src/utils.ts): lowercase the string and keep
only ASCII lowercase letters and digits.  (ASCII model of JS
`toLowerCase`; all identifiers in the claims are ASCII.) -/
def toID (text : String) : String :=
  ((text.toList.map lowerAscii).filter
    (fun c => (decide ('a' ≤ c) && decide (c ≤ 'z')) ||
      (decide ('0' ≤ c) && decide (c ≤ '9')))).asString

/-- Digits-to-Nat accumulator for the `parseInt` model. -/
def natOfDigits (cs : List Char) : Nat :=
  cs.foldl (fun acc c => acc * 10 + (c.toNat - 48)) 0

/-- Decimal model of JS `parseInt`: skip leading whitespace, optional sign,
leading digits; `none` models the `NaN` result.  (The hex `0x` auto-radix
case never arises for the cookie and challenge fields this file models.) -/
def parseIntJS (s : String) : Option Int :=
  match s.toList.dropWhile (fun c => c == ' ' || c == '\t' || c == '\n' || c == '\r') with
  | '-' :: rest =>
    let ds := rest.takeWhile (fun c => c.isDigit)
    if ds.isEmpty then none else some (-(natOfDigits ds : Int))
  | '+' :: rest =>
    let ds := rest.takeWhile (fun c => c.isDigit)
    if ds.isEmpty then none else some ((natOfDigits ds : Int))
  | cs =>
    let ds := cs.takeWhile (fun c => c.isDigit)
    if ds.isEmpty then none else some ((natOfDigits ds : Int))

/-- JS truthiness of an optional string (undefined and `""` are falsy). -/
def truthy : Option String → Bool
  | some s => s != ""
  | none => false

/-- The current user attached to an action context (class `User` in
src/user.ts): display name, canonical id, and the id the user is logged
in as (`""` when not logged in). -/
structure User where
  name : String := "Guest"
  id : String := "guest"
  loggedIn : String := ""
deriving DecidableEq, Repr

/-- `User.login` from src/user.ts: `setName` (which recomputes the id)
followed by `loggedIn = this.id`. -/
def User.login (u : User) (name : String) : User :=
  { u with name := name, id := toID name, loggedIn := toID name }

/-- A row of the `ntbb_users` table, with the fields this core touches. -/
structure UserRow where
  userid : String
  username : String := ""
  passwordhash : Option String := none
  email : Option String := none
  banstate : Int := 0
  registertime : Int := 0
  logintime : Int := 0
  loginip : String := ""
  nonce : Option String := none
deriving DecidableEq, Repr

/-- A row of the `ntbb_sessions` table (`id` is the autoincrement key
embedded in the cookie). -/
structure SessionRow where
  id : Int
  userid : String
  sid : String
  time : Int := 0
  timeout : Int
  ip : String := ""
deriving DecidableEq, Repr

/-- A row of the `ntbb_loginthrottle` table, keyed by IP. -/
structure ThrottleRow where
  ip : String
  count : Int
  lastuserid : String := ""
  time : Int
deriving DecidableEq, Repr

/-- A row of the `oauth_clients` table. -/
structure OAuthClientRow where
  id : String
  owner : String := ""
  client_title : String := ""
  origin_url : String := ""
deriving DecidableEq, Repr

/-- A row of the `oauth_tokens` table. -/
structure OAuthTokenRow where
  id : String
  owner : String
  client : String
  time : Int
deriving DecidableEq, Repr

/-- The persistent stores consulted by the authentication core.
`ladderWins` holds `(userid, w)` pairs standing in for the ladder table
rows consulted by the autoconfirmed promotion query. -/
structure Store where
  users : List UserRow := []
  sessions : List SessionRow := []
  loginthrottle : List ThrottleRow := []
  oauthClients : List OAuthClientRow := []
  oauthTokens : List OAuthTokenRow := []
  ladderWins : List (String × Int) := []
deriving DecidableEq, Repr

/-- `users.get(userid)`. -/
def usersGet (st : Store) (uid : String) : Option UserRow :=
  st.users.find? (fun u => u.userid == uid)

/-- `users.update(userid, ...)`: rewrite the matching row in place. -/
def usersUpdate (st : Store) (uid : String) (f : UserRow → UserRow) : Store :=
  { st with users := st.users.map (fun u => if u.userid == uid then f u else u) }

/-- Config fields the authentication core reads (config-example.js plus
the optional `(Config as any)` hooks, modelled as optional functions). -/
structure Config where
  bannedTerms : List String := []
  autolockip : List String := []
  sysops : List String := []
  compromisedkeys : List Int := []
  challengekeyid : Int := 4
  corsRules : List ((String → Bool) × String) := []
  getUserType : Option (User → Int → String → String) := none
  validateassertion : Option (Option String → User → String → String → String) := none

/-- One entry of `Session.getBannedNameTerms()`: a literal substring or
the `/(lol|ror)icon/` pattern. -/
inductive NameTerm
  | str (s : String)
  | reLolicon
deriving DecidableEq, Repr

/-- Whether a banned-name term matches a userid: `userid.includes(term)`
for strings, regex test for the pattern entry. -/
def NameTerm.matchesId : NameTerm → String → Bool
  | .str s, u => strIncludes u s
  | .reLolicon, u => strIncludes u "lolicon" || strIncludes u "roricon"

/-- `Session.getBannedNameTerms()`: configured terms followed by the
built-in list, in source order. -/
def getBannedNameTerms (cfg : Config) : List NameTerm :=
  (cfg.bannedTerms.map NameTerm.str) ++
    [.str "nigger", .str "nigga", .str "faggot", .reLolicon,
     .str "lazyafrican", .str "tranny"]

/-- `Session.isUseridAllowed`. -/
def isUseridAllowed (cfg : Config) (userid : String) : Bool :=
  !((getBannedNameTerms cfg).any (fun t => t.matchesId userid))

/-- Whether the string has an ASCII lowercase letter (`/[a-z]/.test`). -/
def hasLowerLetter (s : String) : Bool :=
  s.toList.any (fun c => decide ('a' ≤ c) && decide (c ≤ 'z'))

/-- `Session.sanitizeHash`: normalize a legacy bcrypt scheme id to the
`$2b` the JS bcrypt produces, before comparison. -/
def sanitizeHash (pass : String) : String :=
  if jsStartsWith pass "$2b" then pass else "$2b" ++ (pass.toList.drop 3).asString

/-- Outcome of the username/identity stage of `Session.getAssertion`:
either an early `;`/`;;...` return or the `data` payload to be signed. -/
inductive NameStage
  | reject (msg : String)
  | accept (data : String)
deriving DecidableEq, Repr

/-- Usertype chain of `Session.getAssertion` for a user already logged in
as the target id (user.ts lines 236-267).  An `.ok` result carries the
usertype and the store after the possible autoconfirmed promotion;
`.error` is one of the early `;;` returns. -/
def loggedInUserType (cfg : Config) (st : Store) (userid : String) (user : User)
    (forceUsertype : Option String) (banstate registertime : Int) (now : Int)
    (serverHost : String) : Except String (String × Store) :=
  if cfg.sysops.contains user.id then .ok ("3", st)
  else
    let customType : Option String :=
      match cfg.getUserType with
      | some f => let r := f user banstate serverHost; if r == "" then none else some r
      | none => none
    match forceUsertype with
    | some f => .ok (f, st)
    | none =>
      match customType with
      | some c => .ok (c, st)
      | none =>
        if banstate ≤ -10 then .ok ("4", st)
        else if 100 ≤ banstate then .error ";;Your username is no longer available."
        else if 40 ≤ banstate then .ok ("2", st)
        else if 30 ≤ banstate then .ok ("6", st)
        else if 20 ≤ banstate then .ok ("5", st)
        else if banstate == 0 then
          if registertime != 0 && decide (7 * 24 * 60 * 60 < now - registertime) then
            match st.ladderWins.find? (fun p => p.1 == userid && p.2 != 0) with
            | some _ => .ok ("4", usersUpdate st userid (fun r => { r with banstate := -10 }))
            | none => .ok ("2", st)
          else .ok ("2", st)
        else .ok ("2", st)

/-- Username/identity stage of `Session.getAssertion` (user.ts lines
210-291): username policy checks, usertype derivation, the daily
`logintime` stamp, and the unregistered-name path. -/
def usernameStage (cfg : Config) (st : Store) (ip serverHost : String) (now : Int)
    (userid : String) (user : User) : NameStage × Store :=
  if userid == "guest" then (.reject ";", st)
  else if jsStartsWith userid "guest" then
    (.reject ";;Your username cannot start with \x27guest\x27.", st)
  else if 18 < userid.length then
    (.reject ";;Your username must be less than 19 characters long.", st)
  else if !(isUseridAllowed cfg userid) then
    (.reject ";;Your username contains disallowed text.", st)
  else
    let forceUsertype : Option String :=
      if cfg.autolockip.contains ip then some "5" else none
    let userData : Option UserRow :=
      if user.loggedIn != "" then usersGet st user.id else none
    let banstate : Int := (userData.map (fun u => u.banstate)).getD 0
    let registertime : Int := (userData.map (fun u => u.registertime)).getD 0
    let logintime : Int := (userData.map (fun u => u.logintime)).getD 0
    if user.loggedIn == userid then
      match loggedInUserType cfg st userid user forceUsertype banstate registertime now serverHost with
      | .error msg => (.reject msg, st)
      | .ok (ut, st1) =>
        let st2 :=
          if logintime == 0 || decide (24 * 60 * 60 < now - logintime) then
            usersUpdate st1 userid (fun r => { r with logintime := now, loginip := ip })
          else st1
        (.accept (userid ++ "," ++ ut ++ "," ++ toString now ++ "," ++ serverHost), st2)
    else
      if userid.length < 1 || !(hasLowerLetter userid) then
        (.reject ";;Your username must contain at least one letter.", st)
      else
        match usersGet st userid with
        | some u =>
          -- the source also tests `(userstate as any).password && userstate.nonce`;
          -- rows carry no `password` column, so that conjunct is always falsy
          if 100 ≤ u.banstate then (.reject ";;Your username is no longer available.", st)
          else if jsEndsWith (u.email.getD "") "@" then (.reject ";;@gmail", st)
          else (.reject ";", st)
        | none =>
          (.accept (userid ++ "," ++ forceUsertype.getD "1" ++ "," ++ toString now ++ "," ++ serverHost), st)

/-- Challenge split loop of `Session.getAssertion` (user.ts lines
292-296): try the `;`, URL-encoded pipe, and raw pipe delimiters in turn;
the result of the last attempted split is kept even when no delimiter
matched. -/
def splitChallengeOf (challenge : String) : List String :=
  let a := jsSplit challenge ";"
  if 1 < a.length then a
  else
    let b := jsSplit challenge "%7C"
    if 1 < b.length then b
    else jsSplit challenge "|"

/-- Effective key id, challenge, and optional token after the delimited
challenge override (user.ts lines 298-303).  `keyid = none` models a
`NaN` from `parseInt`. -/
structure ChallengeParts where
  keyid : Option Int
  chal : String
  token : Option String
deriving DecidableEq, Repr

/-- Compute the effective challenge parts from the separately-passed
`challengekeyid`/`challenge` arguments and the delimiter-encoded form. -/
def effectiveChallenge (challengekeyid : Option Int) (challenge : String) : ChallengeParts :=
  let sc := splitChallengeOf challenge
  if 1 < sc.length then
    { keyid := parseIntJS (sc.getD 0 ""),
      chal := sc.getD 1 "",
      token := if sc.getD 2 "" == "" then none else some (sc.getD 2 "") }
  else
    { keyid := challengekeyid, chal := challenge, token := none }

/-- JS `challengekeyid < 1` where `none` is `NaN` (`NaN < 1` is false). -/
def keyidLt1 : Option Int → Bool
  | some k => decide (k < 1)
  | none => false

/-- JS `Config.compromisedkeys.includes(challengekeyid)`; the config list
holds ordinary numbers, so a `NaN` key id never matches. -/
def keyidCompromised (cfg : Config) : Option Int → Bool
  | some k => cfg.compromisedkeys.contains k
  | none => false

/-- JS `Config.challengekeyid !== challengekeyid` negated; `NaN` is not
equal to the active key id. -/
def keyidEqActive (active : Int) : Option Int → Bool
  | some k => active == k
  | none => false

/-- Printed form of the effective key id in the compromised-key message. -/
def keyidText : Option Int → String
  | some k => toString k
  | none => "NaN"

/-- Challenge-validation and signing stage of `Session.getAssertion`
(user.ts lines 292-336), applied to the `data` payload produced by the
username stage. -/
def signStage (cfg : Config) (st : Store) (user : User) (serverHost : String)
    (sign : String → String) (challengekeyid : Option Int)
    (challenge chalPfx data : String) : String × Store :=
  let p := effectiveChallenge challengekeyid challenge
  if toID p.chal == "" then (";;Corrupt challenge", st)
  else if keyidLt1 p.keyid then
    (";;This server is requesting an invalid login key. This probably means that either you are not connected to a server, or the server is set up incorrectly.", st)
  else if keyidCompromised cfg p.keyid then
    (";;This server is using login key " ++ keyidText p.keyid ++
      ", which is no longer supported. Please tell the server operator to update their config.js file.", st)
  else if !(keyidEqActive cfg.challengekeyid p.keyid) then
    (";;Unknown key ID", st)
  else
    let data2 := chalPfx ++ p.chal ++ "," ++ data
    let data3 :=
      match cfg.validateassertion with
      | some f => f p.token user data2 serverHost
      | none => data2
    (data3 ++ ";" ++ sign data3, st)

/-- `Session.getAssertion` (user.ts lines 207-336): username stage
followed by the challenge/signing stage.  `ip` and `serverHost` are the
request's resolved client IP and registered server host; `now` is
`time()`; `sign` is the RSA-SHA1 signing oracle returning hex. -/
def getAssertion (cfg : Config) (st : Store) (ip serverHost : String) (now : Int)
    (sign : String → String) (userid : String) (challengekeyid : Option Int)
    (user : User) (challenge : String) (chalPfx : String) : String × Store :=
  match usernameStage cfg st ip serverHost now userid user with
  | (.reject msg, st1) => (msg, st1)
  | (.accept data, st1) =>
    signStage cfg st1 user serverHost sign challengekeyid challenge chalPfx data

/-- Result of `Session.checkLoggedIn` (user.ts lines 463-511): the
resolved user (`none` means the caller stays Guest), the session store
after the lazy expiry sweep, whether `deleteCookie` ran, and whether the
`body.sid` path set the wildcard CORS header. -/
structure CheckOut where
  user : Option User
  store : Store
  cookieCleared : Bool
  corsAllowAll : Bool
deriving DecidableEq, Repr

/-- `Session.checkLoggedIn`: resolve the 3-part `sid` cookie (or the
`body.sid` override) against the session store.  `cmp` is the
`bcrypt.compare` oracle applied to (presented secret, stored digest). -/
def checkLoggedIn (st : Store) (ctime : Int) (bodySid : Option String)
    (cookieSid : Option String) (cmp : String → String → Bool) : CheckOut :=
  let corsAllowAll := truthy bodySid
  let scookie : String :=
    if truthy bodySid then bodySid.getD "" else cookieSid.getD ""
  if scookie == "" then ⟨none, st, false, corsAllowAll⟩
  else
    let scsplit := (jsSplit scookie ",").filter (fun p => p != "")
    let cookieName := if scsplit.length == 3 then scsplit.getD 0 "" else ""
    let sessionNum : Int :=
      if scsplit.length == 3 then (parseIntJS (scsplit.getD 1 "")).getD 0 else 0
    let sid := if scsplit.length == 3 then scsplit.getD 2 "" else ""
    if sessionNum == 0 then ⟨none, st, false, corsAllowAll⟩
    else
      match st.sessions.find? (fun r => r.id == sessionNum) with
      | none => ⟨none, st, true, corsAllowAll⟩
      | some res =>
        if !(cmp sid res.sid) then ⟨none, st, true, corsAllowAll⟩
        else if res.userid != toID cookieName then ⟨none, st, false, corsAllowAll⟩
        else if res.timeout < ctime then
          -- the lazy sweep is `DELETE ... WHERE timeout = ctime`, verbatim
          ⟨none, { st with sessions := st.sessions.filter (fun r => r.timeout != ctime) },
            true, corsAllowAll⟩
        else
          ⟨some (User.login {} cookieName), st, false, corsAllowAll⟩

/-- `loginthrottle.get(ip, ['count', 'time'])`. -/
def throttleGet (st : Store) (ip : String) : Option ThrottleRow :=
  st.loginthrottle.find? (fun r => r.ip == ip)

/-- `loginthrottle.update(ip, {count, lastuserid, time})`. -/
def throttleUpdate (st : Store) (ip : String) (count : Int) (lastuserid : String)
    (t : Int) : Store :=
  { st with loginthrottle :=
      st.loginthrottle.map (fun r =>
        if r.ip == ip then { r with count := count, lastuserid := lastuserid, time := t }
        else r) }

/-- Result of `Session.passwordVerify`: the boolean verdict and the store
after throttle bookkeeping / rehash. -/
structure VerifyOut where
  ok : Bool
  store : Store
deriving DecidableEq, Repr

/-- Credential portion of `Session.passwordVerify` after the throttle
check; `tt` is the in-memory `(count, time)` throttle object (post
window-reset), `none` when no row existed. -/
def passwordVerifyMain (st : Store) (ip : String) (now : Int)
    (cmp : String → String → Bool) (googleEmail : String → Option String)
    (needsRehash : Option (String → String → Bool)) (hashOf : String → String)
    (userid pass : String) (tt : Option (Int × Int)) : VerifyOut :=
  let userData := usersGet st userid
  if jsEndsWith ((userData.bind (fun u => u.email)).getD "") "@" then
    match googleEmail pass with
    | none => ⟨false, st⟩
    | some em =>
      ⟨em == ((userData.bind (fun u => u.email)).getD "").toList.dropLast.asString, st⟩
  else
    match userData with
    | some u =>
      match u.passwordhash with
      | some ph0 =>
        let ph := sanitizeHash ph0
        if !(cmp pass ph) then
          let st2 :=
            match tt with
            | some (c, _) => throttleUpdate st ip (c + 1) userid now
            | none =>
              { st with loginthrottle :=
                  st.loginthrottle ++ [ThrottleRow.mk ip 1 userid now] }
          ⟨false, st2⟩
        else
          let rehash :=
            match needsRehash with
            | some f => f userid ph
            | none => false
          if rehash then
            if hashOf pass != "" then
              ⟨true, usersUpdate st userid
                (fun r => { r with passwordhash := some (hashOf pass), nonce := none })⟩
            else ⟨true, st⟩
          else ⟨true, st⟩
      | none => ⟨false, st⟩
    | none => ⟨false, st⟩

/-- `Session.passwordVerify` (user.ts lines 380-458).  `cmp` is
`bcrypt.compare`; `googleEmail` is the federated id-token verifier
(returning the payload email when the signature and audience checks
pass); `needsRehash` is the optional `passwordNeedsRehash` hook and
`hashOf` is `bcrypt.hash`. -/
def passwordVerify (st : Store) (ip : String) (now : Int)
    (cmp : String → String → Bool) (googleEmail : String → Option String)
    (needsRehash : Option (String → String → Bool)) (hashOf : String → String)
    (name pass : String) : VerifyOut :=
  let userid := toID name
  match throttleGet st ip with
  | some t =>
    if 500 < t.count then
      -- hard lockout, checked before the 24h window reset
      ⟨false, throttleUpdate st ip (t.count + 1) userid now⟩
    else
      let tt : Option (Int × Int) :=
        if t.time + 24 * 60 * 60 < now then some (0, now) else some (t.count, t.time)
      passwordVerifyMain st ip now cmp googleEmail needsRehash hashOf userid pass tt
  | none =>
    passwordVerifyMain st ip now cmp googleEmail needsRehash hashOf userid pass none

/-- `OAUTH_TOKEN_TIME` from src/actions.ts: two weeks in milliseconds. -/
def OAUTH_TOKEN_TIME : Int := 2 * 7 * 24 * 60 * 60 * 1000

/-- Outcome of an OAuth API handler: a thrown `ActionError`, the
`{success: false}` body, or `{success: <token id>}` with the optional
`expires` field. -/
inductive OAuthResult
  | thrown (msg : String)
  | failure
  | token (id : String) (expires : Option Int)
deriving DecidableEq, Repr

/-- `getOAuthClient` from src/actions.ts (origin argument omitted: the
API handlers modelled here pass none). -/
def getOAuthClient (st : Store) (clientId : Option String) : Except String OAuthClientRow :=
  match clientId with
  | none => .error "No client_id provided."
  | some cid =>
    if cid == "" then .error "No client_id provided."
    else
      match st.oauthClients.find? (fun c => c.id == cid) with
      | none => .error "Invalid client_id"
      | some c => .ok c

/-- `oauthTokens.selectOne() WHERE client = _ AND owner = _`. -/
def oauthTokenFor (st : Store) (client owner : String) : Option OAuthTokenRow :=
  st.oauthTokens.find? (fun t => t.client == client && t.owner == owner)

/-- The `oauth/api/authorize` handler (actions.ts lines 606-628).
`nowMs` is `Date.now()` and `freshId` the random 16-byte hex id. -/
def oauthAuthorize (st : Store) (user : User) (clientId : Option String)
    (nowMs : Int) (freshId : String) : OAuthResult × Store :=
  if user.loggedIn == "" then (.thrown "You\x27re not logged in.", st)
  else
    match getOAuthClient st clientId with
    | .error e => (.thrown e, st)
    | .ok clientInfo =>
      match oauthTokenFor st clientInfo.id user.id with
      | some existing =>
        if OAUTH_TOKEN_TIME < nowMs - existing.time then
          (.failure,
            { st with oauthTokens := st.oauthTokens.filter (fun t => t.id != existing.id) })
        else (.token existing.id none, st)
      | none =>
        (.token freshId (some (nowMs + OAUTH_TOKEN_TIME)),
          { st with oauthTokens :=
              st.oauthTokens ++ [OAuthTokenRow.mk freshId user.id clientInfo.id nowMs] })

/-- The `oauth/api/refreshtoken` handler (actions.ts lines 630-647). -/
def oauthRefreshToken (st : Store) (clientId : Option String) (token : String)
    (nowMs : Int) (freshId : String) : OAuthResult × Store :=
  match getOAuthClient st clientId with
  | .error e => (.thrown e, st)
  | .ok clientInfo =>
    if token == "" then (.thrown "No token provided.", st)
    else
      match st.oauthTokens.find? (fun t => t.id == token) with
      | none => (.failure, st)
      | some e =>
        let st1 := { st with oauthTokens :=
          st.oauthTokens ++ [OAuthTokenRow.mk freshId e.owner clientInfo.id nowMs] }
        let st2 := { st1 with oauthTokens := st1.oauthTokens.filter (fun t => t.id != e.id) }
        (.token freshId (some (nowMs + OAUTH_TOKEN_TIME)), st2)

/-- Outcome of `oauth/api/getassertion`: a thrown error, `{success:
false}`, or the assertion string returned by `Session.getAssertion`. -/
inductive OAuthAssert
  | thrown (msg : String)
  | failure
  | assertion (s : String)
deriving DecidableEq, Repr

/-- The `oauth/api/getassertion` handler (actions.ts lines 650-673):
token lookup, expiry check, then delegation to `Session.getAssertion`
with the engine's active key id after `this.user.login(owner)`. -/
def oauthGetAssertion (cfg : Config) (st : Store) (ip serverHost : String)
    (clientId : Option String) (token challstr : String)
    (nowMs now : Int) (sign : String → String) : OAuthAssert × Store :=
  match getOAuthClient st clientId with
  | .error e => (.thrown e, st)
  | .ok _ =>
    if token == "" then (.thrown "No token provided.", st)
    else if challstr == "" then (.thrown "No challstr provided.", st)
    else
      match st.oauthTokens.find? (fun t => t.id == token) with
      | none => (.failure, st)
      | some e =>
        if OAUTH_TOKEN_TIME < nowMs - e.time then
          (.failure, { st with oauthTokens := st.oauthTokens.filter (fun t => t.id != e.id) })
        else
          let u := User.login {} e.owner
          let r := getAssertion cfg st ip serverHost now sign u.id
            (some cfg.challengekeyid) u challstr ""
          (.assertion r.1, r.2)

/-- Per-request trust context of `ActionContext` (src/server.ts): the
memoized challenge prefix and the response headers set so far. -/
structure RequestCtx where
  pfx : Option String := none
  headers : List (String × String) := []
deriving DecidableEq, Repr

/-- `ActionContext.allowCORS(origin)` with a concrete origin string. -/
def allowCORS (ctx : RequestCtx) (origin : String) : RequestCtx :=
  { ctx with headers := ctx.headers ++
      [("Access-Control-Allow-Origin", origin),
       ("Access-Control-Allow-Credentials", "true")] }

/-- Scan of the ordered `Config.cors` rules; the last matching rule wins. -/
def corsMatch (cfg : Config) (origin : String) : Option String :=
  cfg.corsRules.foldl (fun acc pr => if pr.1 origin then some pr.2 else acc) none

/-- `ActionContext.verifyCrossDomainRequest` (server.ts lines 185-208):
returns the challenge prefix and the updated request context. -/
def verifyCrossDomainRequest (cfg : Config) (origin : Option String)
    (ctx : RequestCtx) : String × RequestCtx :=
  match ctx.pfx with
  | some p => (p, ctx)
  | none =>
    match origin with
    | none => ("", ctx)
    | some o =>
      if o == "" then ("", ctx)
      else
        match corsMatch cfg o with
        | none => ("", ctx)
        | some p => (p, { pfx := some p, headers := (allowCORS ctx o).headers })

example : toID "Bob!" = "bob" := by decide
example : parseIntJS "1" = some 1 := by decide
example : parseIntJS "x" = none := by decide
example : parseIntJS "-12" = some (-12) := by decide
example : jsSplit "a,b,," "," = ["a", "b", "", ""] := by decide
example : jsSplit "1|abc123" "|" = ["1", "abc123"] := by decide
example : jsSplit "1%7Cx" "%7C" = ["1", "x"] := by decide
example : isUseridAllowed {} "annanigger12" = false := by decide
example : isUseridAllowed {} "alice" = true := by decide
example : isUseridAllowed {} "xroriconx" = false := by decide
example : sanitizeHash "$2y$10abc" = "$2b$10abc" := by decide
example :
    (getAssertion {} {} "ip" "host" 0 (fun _ => "SIG") "guest" none {} "" "").1 = ";" := by
  decide
example :
    (getAssertion {} {} "ip" "host" 0 (fun _ => "SIG") "guest2" none {} "" "").1 =
      ";;Your username cannot start with \x27guest\x27." := by
  decide
example :
    (getAssertion { challengekeyid := 1 } {} "ip" "host" 7 (fun d => "SIG:" ++ d)
        "alice" none {} "1|abc123" "").1 =
      "abc123,alice,1,7,host;SIG:abc123,alice,1,7,host" := by
  decide
example :
    (getAssertion { challengekeyid := 4, compromisedkeys := [2] } {} "ip" "host" 7
        (fun _ => "SIG") "alice" none {} "2|abc123" "").1 =
      ";;This server is using login key 2, which is no longer supported. Please tell the server operator to update their config.js file." := by
  decide

/-- C10: for the exact userid "guest", `getAssertion` returns the bare
failure marker ";" (no message), while every other userid with the
"guest" prefix receives the ";;Your username cannot start with 'guest'."
message. -/
theorem c10_guest_exact_bare_marker (cfg : Config) (st : Store) (ip serverHost : String)
    (now : Int) (sign : String → String) (ckid : Option Int) (user : User)
    (challenge chalPfx : String) (userid : String)
    (hne : userid ≠ "guest") (hpre : jsStartsWith userid "guest" = true) :
    (getAssertion cfg st ip serverHost now sign "guest" ckid user challenge chalPfx).1 = ";" ∧
    (getAssertion cfg st ip serverHost now sign userid ckid user challenge chalPfx).1 =
      ";;Your username cannot start with \x27guest\x27." := by
  have h1 : (userid == "guest") = false := by
    simp only [beq_eq_false_iff_ne, ne_eq]
    exact hne
  constructor
  · simp [getAssertion, usernameStage]
  · simp [getAssertion, usernameStage, h1, hpre]

/-- Witness for C10 at the concrete userid "guest2". -/
theorem c10_guest_exact_bare_marker_w :
    (getAssertion {} {} "ip" "host" 0 (fun _ => "") "guest" none {} "" "").1 = ";" ∧
    (getAssertion {} {} "ip" "host" 0 (fun _ => "") "guest2" none {} "" "").1 =
      ";;Your username cannot start with \x27guest\x27." :=
  c10_guest_exact_bare_marker {} {} "ip" "host" 0 (fun _ => "") none {} "" "" "guest2"
    (by decide) (by decide)

/-- C4: evaluating `checkLoggedIn` on a structurally valid cookie naming
an expired session (timeout 999, observed at ctime 1000): the resolution
yields Guest and clears the cookie, but the observed expired row survives
in the store, because the sweep deletes rows with `timeout = ctime`
rather than `timeout < ctime`. -/
theorem c4_expired_session_row_survives :
    checkLoggedIn
        (Store.mk [] [SessionRow.mk 1 "alice" "HASH" 0 999 ""] [] [] [] [])
        1000 none (some "alice,1,secret")
        (fun s h => s == "secret" && h == "HASH") =
      CheckOut.mk none (Store.mk [] [SessionRow.mk 1 "alice" "HASH" 0 999 ""] [] [] [] [])
        true false := by
  decide

/-- C2: with a throttle row over 500 failures for the request IP, the
next `passwordVerify` call fails, increments the stored count, and its
outcome is the same for every users table and every bcrypt oracle (no
credential comparison and no account-row consultation can influence
it). -/
theorem c2_hard_lockout (st : Store) (ip name pass : String) (now : Int)
    (cmp : String → String → Bool) (googleEmail : String → Option String)
    (needsRehash : Option (String → String → Bool)) (hashOf : String → String)
    (t : ThrottleRow)
    (hget : throttleGet st ip = some t) (hcount : 500 < t.count) :
    passwordVerify st ip now cmp googleEmail needsRehash hashOf name pass =
      VerifyOut.mk false (throttleUpdate st ip (t.count + 1) (toID name) now) ∧
    (∀ (usersTbl : List UserRow) (cmpOther : String → String → Bool),
      passwordVerify { st with users := usersTbl } ip now cmpOther googleEmail
          needsRehash hashOf name pass =
        VerifyOut.mk false
          (throttleUpdate { st with users := usersTbl } ip (t.count + 1) (toID name) now)) := by
  constructor
  · simp [passwordVerify, hget, hcount]
  · intro usersTbl cmpOther
    have hget2 : throttleGet { st with users := usersTbl } ip = some t := hget
    simp [passwordVerify, hget2, hcount]

/-- Witness for C2 at a concrete locked-out throttle row. -/
theorem c2_hard_lockout_w :
    passwordVerify (Store.mk [] [] [ThrottleRow.mk "1.2.3.4" 501 "x" 0] [] [] [])
        "1.2.3.4" 10 (fun _ _ => true) (fun _ => none) none (fun _ => "") "bob" "pw" =
      VerifyOut.mk false (Store.mk [] [] [ThrottleRow.mk "1.2.3.4" 502 "bob" 10] [] [] []) := by
  have h := c2_hard_lockout (Store.mk [] [] [ThrottleRow.mk "1.2.3.4" 501 "x" 0] [] [] [])
    "1.2.3.4" "bob" "pw" 10 (fun _ _ => true) (fun _ => none) none (fun _ => "")
    (ThrottleRow.mk "1.2.3.4" 501 "x" 0) (by decide) (by decide)
  exact h.1.trans (by decide)

/-- C3 counterexample: an IP locked out with failureCount 501 whose
window started at time 0 is still short-circuited at time 1000000 (well
past 24h): the attempt fails and the count grows to 502, although the
account exists and the bcrypt oracle would accept the password. -/
theorem c3_counterexample :
    passwordVerify
        (Store.mk [UserRow.mk "bob" "" (some "$2b$x") none 0 0 0 "" none] []
          [ThrottleRow.mk "ip" 501 "x" 0] [] [] [])
        "ip" 1000000 (fun _ _ => true) (fun _ => none) none (fun _ => "")
        "bob" "pw" =
      VerifyOut.mk false
        (Store.mk [UserRow.mk "bob" "" (some "$2b$x") none 0 0 0 "" none] []
          [ThrottleRow.mk "ip" 502 "bob" 1000000] [] [] []) := by
  decide

/-- C3 amended: the hard-lockout test precedes the 24h window reset, so
the reset applies only when the stored count is at most 500.  With count
over 500 the attempt short-circuits as failed regardless of the window
age; with count at most 500 and a window older than 24h, a failed
credential check stores a reset-then-incremented count of 1. -/
theorem c3_reset_only_below_threshold (st : Store) (ip name pass ph : String) (now : Int)
    (cmp : String → String → Bool) (googleEmail : String → Option String)
    (needsRehash : Option (String → String → Bool)) (hashOf : String → String)
    (t : ThrottleRow) (u : UserRow)
    (hget : throttleGet st ip = some t) :
    (500 < t.count →
      passwordVerify st ip now cmp googleEmail needsRehash hashOf name pass =
        VerifyOut.mk false (throttleUpdate st ip (t.count + 1) (toID name) now)) ∧
    (t.count ≤ 500 → t.time + 24 * 60 * 60 < now →
      usersGet st (toID name) = some u →
      jsEndsWith (u.email.getD "") "@" = false →
      u.passwordhash = some ph →
      cmp pass (sanitizeHash ph) = false →
      passwordVerify st ip now cmp googleEmail needsRehash hashOf name pass =
        VerifyOut.mk false (throttleUpdate st ip 1 (toID name) now)) := by
  constructor
  · intro hcount
    simp [passwordVerify, hget, hcount]
  · intro hcount hstale huser hmail hhash hcmp
    have hnot : ¬ (500 < t.count) := by omega
    have hstale2 : t.time + 86400 < now := by omega
    simp [passwordVerify, hget, hnot, hstale2, passwordVerifyMain, huser, hmail, hhash, hcmp]

/-- Witness for C3's amended statement: stale window, count 500, wrong
password; the stored count resets and lands at 1. -/
theorem c3_reset_only_below_threshold_w :
    passwordVerify
        (Store.mk [UserRow.mk "bob" "" (some "$2b$x") none 0 0 0 "" none] []
          [ThrottleRow.mk "ip" 500 "x" 0] [] [] [])
        "ip" 1000000 (fun _ _ => false) (fun _ => none) none (fun _ => "")
        "bob" "pw" =
      VerifyOut.mk false
        (Store.mk [UserRow.mk "bob" "" (some "$2b$x") none 0 0 0 "" none] []
          [ThrottleRow.mk "ip" 1 "bob" 1000000] [] [] []) := by
  have h := c3_reset_only_below_threshold
    (Store.mk [UserRow.mk "bob" "" (some "$2b$x") none 0 0 0 "" none] []
      [ThrottleRow.mk "ip" 500 "x" 0] [] [] [])
    "ip" "bob" "pw" "$2b$x" 1000000 (fun _ _ => false) (fun _ => none) none (fun _ => "")
    (ThrottleRow.mk "ip" 500 "x" 0) (UserRow.mk "bob" "" (some "$2b$x") none 0 0 0 "" none)
    (by decide)
  exact (h.2 (by decide) (by decide) (by decide) (by decide) (by decide) (by decide)).trans
    (by decide)

/-- C1 counterexample: a three-part cookie whose display name "Bob" does
not canonicalize to the session owner "alice" resolves to Guest, but the
session cookie is NOT cleared (the name-mismatch branch returns without
`deleteCookie`). -/
theorem c1_counterexample :
    checkLoggedIn (Store.mk [] [SessionRow.mk 1 "alice" "HASH" 0 2000 ""] [] [] [] [])
        1000 none (some "Bob,1,secret")
        (fun s h => s == "secret" && h == "HASH") =
      CheckOut.mk none (Store.mk [] [SessionRow.mk 1 "alice" "HASH" 0 2000 ""] [] [] [] [])
        false false := by
  decide

/-- C1 amended: a three-part cookie whose embedded display name does not
canonicalize to the session owner resolves the caller as Guest, but the
cookie is cleared only on a bad digest or on expiry — the name-mismatch
branch leaves the cookie in place. -/
theorem c1_cookie_failure_clearing (st : Store) (ctime : Int)
    (cookie nm sessStr sid : String) (cmp : String → String → Bool)
    (row : SessionRow) (n : Int)
    (hc : cookie ≠ "")
    (hsplit : (jsSplit cookie ",").filter (fun p => p != "") = [nm, sessStr, sid])
    (hparse : (parseIntJS sessStr).getD 0 = n) (hn : n ≠ 0)
    (hfind : st.sessions.find? (fun r => r.id == n) = some row) :
    (cmp sid row.sid = true → row.userid ≠ toID nm →
      (checkLoggedIn st ctime none (some cookie) cmp).user = none ∧
      (checkLoggedIn st ctime none (some cookie) cmp).cookieCleared = false) ∧
    (cmp sid row.sid = false →
      (checkLoggedIn st ctime none (some cookie) cmp).user = none ∧
      (checkLoggedIn st ctime none (some cookie) cmp).cookieCleared = true) ∧
    (cmp sid row.sid = true → row.userid = toID nm → row.timeout < ctime →
      (checkLoggedIn st ctime none (some cookie) cmp).user = none ∧
      (checkLoggedIn st ctime none (some cookie) cmp).cookieCleared = true) := by
  have hcb : (cookie == "") = false := by
    simp only [beq_eq_false_iff_ne, ne_eq]; exact hc
  have hnb : (n == 0) = false := by
    simp only [beq_eq_false_iff_ne, ne_eq]; exact hn
  refine ⟨fun hcmp hmm => ?_, fun hcmp => ?_, fun hcmp hname hexp => ?_⟩
  · have hmm2 : (row.userid != toID nm) = true := by
      simp only [bne_iff_ne, ne_eq]; exact hmm
    simp [checkLoggedIn, truthy, hcb, hsplit, hparse, hnb, hfind, hcmp, hmm2]
  · simp [checkLoggedIn, truthy, hcb, hsplit, hparse, hnb, hfind, hcmp]
  · have hname2 : (row.userid != toID nm) = false := by
      simp only [bne_eq_false_iff_eq]; exact hname
    simp [checkLoggedIn, truthy, hcb, hsplit, hparse, hnb, hfind, hcmp, hname2, hexp]

/-- Witness for C1's amended statement at the name-mismatch input. -/
theorem c1_cookie_failure_clearing_w :
    (checkLoggedIn (Store.mk [] [SessionRow.mk 7 "alice" "HASH" 0 2000 ""] [] [] [] [])
        1000 none (some "Bob,7,secret") (fun s h => s == "secret" && h == "HASH")).user =
      none ∧
    (checkLoggedIn (Store.mk [] [SessionRow.mk 7 "alice" "HASH" 0 2000 ""] [] [] [] [])
        1000 none (some "Bob,7,secret")
        (fun s h => s == "secret" && h == "HASH")).cookieCleared = false := by
  have h := c1_cookie_failure_clearing
    (Store.mk [] [SessionRow.mk 7 "alice" "HASH" 0 2000 ""] [] [] [] [])
    1000 "Bob,7,secret" "Bob" "7" "secret"
    (fun s h => s == "secret" && h == "HASH")
    (SessionRow.mk 7 "alice" "HASH" 0 2000 "") 7
    (by decide) (by decide) (by decide) (by decide) (by decide)
  exact h.1 (by decide) (by decide)

/-- C7 counterexample: with a stored token for (alice, cid) that is past
the 14-day lifetime, `oauth/api/authorize` deletes the row but returns
`{success: false}` — it does not fall through to mint and return a fresh
token as the claim states. -/
theorem c7_counterexample :
    oauthAuthorize
        (Store.mk [] [] [] [OAuthClientRow.mk "cid" "own" "T" "u"]
          [OAuthTokenRow.mk "tok" "alice" "cid" 0] [])
        (User.login {} "alice") (some "cid") (OAUTH_TOKEN_TIME + 1) "fresh" =
      (OAuthResult.failure,
        Store.mk [] [] [] [OAuthClientRow.mk "cid" "own" "T" "u"] [] []) := by
  decide

/-- C7 amended: for an authenticated owner and a registered client, a
live unexpired token is returned as-is; an expired token is deleted and
the call answers `{success: false}` (no fresh token is minted in that
call); a fresh token is minted, persisted and returned only when no
token row exists for the (owner, client) pair. -/
theorem c7_authorize_token_lifecycle (st : Store) (user : User)
    (clientId : Option String) (nowMs : Int) (freshId : String)
    (clientInfo : OAuthClientRow)
    (hlog : user.loggedIn ≠ "")
    (hclient : getOAuthClient st clientId = .ok clientInfo) :
    (∀ e, oauthTokenFor st clientInfo.id user.id = some e →
      nowMs - e.time ≤ OAUTH_TOKEN_TIME →
      oauthAuthorize st user clientId nowMs freshId = (.token e.id none, st)) ∧
    (∀ e, oauthTokenFor st clientInfo.id user.id = some e →
      OAUTH_TOKEN_TIME < nowMs - e.time →
      oauthAuthorize st user clientId nowMs freshId =
        (.failure,
          { st with oauthTokens := st.oauthTokens.filter (fun t => t.id != e.id) })) ∧
    (oauthTokenFor st clientInfo.id user.id = none →
      oauthAuthorize st user clientId nowMs freshId =
        (.token freshId (some (nowMs + OAUTH_TOKEN_TIME)),
          { st with oauthTokens :=
              st.oauthTokens ++ [OAuthTokenRow.mk freshId user.id clientInfo.id nowMs] })) := by
  have hlogb : (user.loggedIn == "") = false := by
    simp only [beq_eq_false_iff_ne, ne_eq]; exact hlog
  refine ⟨fun e hfind hlive => ?_, fun e hfind hexp => ?_, fun hnone => ?_⟩
  · have hno : ¬ (OAUTH_TOKEN_TIME < nowMs - e.time) := by omega
    simp [oauthAuthorize, hlogb, hclient, hfind, hno]
  · simp [oauthAuthorize, hlogb, hclient, hfind, hexp]
  · simp [oauthAuthorize, hlogb, hclient, hnone]

/-- Witness for C7's amended statement on the live-token branch. -/
theorem c7_authorize_token_lifecycle_w :
    oauthAuthorize
        (Store.mk [] [] [] [OAuthClientRow.mk "cid" "own" "T" "u"]
          [OAuthTokenRow.mk "tok" "alice" "cid" 0] [])
        (User.login {} "alice") (some "cid") 5 "fresh" =
      (OAuthResult.token "tok" none,
        Store.mk [] [] [] [OAuthClientRow.mk "cid" "own" "T" "u"]
          [OAuthTokenRow.mk "tok" "alice" "cid" 0] []) := by
  have h := c7_authorize_token_lifecycle
    (Store.mk [] [] [] [OAuthClientRow.mk "cid" "own" "T" "u"]
      [OAuthTokenRow.mk "tok" "alice" "cid" 0] [])
    (User.login {} "alice") (some "cid") 5 "fresh"
    (OAuthClientRow.mk "cid" "own" "T" "u") (by decide) rfl
  exact h.1 (OAuthTokenRow.mk "tok" "alice" "cid" 0) (by decide) (by decide)

/-- C9: `oauth/api/refreshtoken` never checks token age: even for a token
older than the 14-day lifetime (which `oauth/api/getassertion` rejects
and deletes), refresh succeeds, deletes the old row, and persists a fresh
token bound to the client_id supplied in the request. -/
theorem c9_refresh_ignores_expiry (st : Store) (clientId : Option String)
    (tok freshId : String) (nowMs : Int) (e : OAuthTokenRow)
    (clientInfo : OAuthClientRow)
    (hclient : getOAuthClient st clientId = .ok clientInfo)
    (htok : tok ≠ "")
    (hfind : st.oauthTokens.find? (fun t => t.id == tok) = some e)
    (hexp : OAUTH_TOKEN_TIME < nowMs - e.time) :
    oauthRefreshToken st clientId tok nowMs freshId =
      (.token freshId (some (nowMs + OAUTH_TOKEN_TIME)),
        { st with oauthTokens := (st.oauthTokens ++ [OAuthTokenRow.mk freshId e.owner clientInfo.id nowMs]).filter (fun t => t.id != e.id) }) ∧
    (∀ (cfg : Config) (ip serverHost challstr : String) (now : Int)
        (sign : String → String), challstr ≠ "" →
      oauthGetAssertion cfg st ip serverHost clientId tok challstr nowMs now sign =
        (.failure,
          { st with oauthTokens := st.oauthTokens.filter (fun t => t.id != e.id) })) := by
  have htokb : (tok == "") = false := by
    simp only [beq_eq_false_iff_ne, ne_eq]; exact htok
  constructor
  · simp [oauthRefreshToken, hclient, htokb, hfind]
  · intro cfg ip serverHost challstr now sign hch
    have hchb : (challstr == "") = false := by
      simp only [beq_eq_false_iff_ne, ne_eq]; exact hch
    simp [oauthGetAssertion, hclient, htokb, hchb, hfind, hexp]

/-- Witness for C9 at a concrete expired token. -/
theorem c9_refresh_ignores_expiry_w :
    oauthRefreshToken
        (Store.mk [] [] [] [OAuthClientRow.mk "cid" "own" "T" "u"]
          [OAuthTokenRow.mk "tok" "alice" "oldcid" 0] [])
        (some "cid") "tok" (OAUTH_TOKEN_TIME + 1) "fresh" =
      (OAuthResult.token "fresh" (some (OAUTH_TOKEN_TIME + 1 + OAUTH_TOKEN_TIME)),
        Store.mk [] [] [] [OAuthClientRow.mk "cid" "own" "T" "u"]
          [OAuthTokenRow.mk "fresh" "alice" "cid" (OAUTH_TOKEN_TIME + 1)] []) := by
  have h := c9_refresh_ignores_expiry
    (Store.mk [] [] [] [OAuthClientRow.mk "cid" "own" "T" "u"]
      [OAuthTokenRow.mk "tok" "alice" "oldcid" 0] [])
    (some "cid") "tok" "fresh" (OAUTH_TOKEN_TIME + 1)
    (OAuthTokenRow.mk "tok" "alice" "oldcid" 0)
    (OAuthClientRow.mk "cid" "own" "T" "u")
    rfl (by decide) (by decide) (by decide)
  exact h.1.trans (by decide)

/-- C8: starting from a request context whose prefix is not yet computed,
a second `verifyCrossDomainRequest` call returns the same prefix and
leaves the context untouched; the CORS headers are appended exactly once
and only when a rule matched; with no (or an empty) Origin header the
prefix is empty and the context is unchanged. -/
theorem c8_cors_idempotent (cfg : Config) (origin : Option String) (ctx0 : RequestCtx)
    (h0 : ctx0.pfx = none) :
    ((verifyCrossDomainRequest cfg origin (verifyCrossDomainRequest cfg origin ctx0).2).1 =
        (verifyCrossDomainRequest cfg origin ctx0).1 ∧
      (verifyCrossDomainRequest cfg origin (verifyCrossDomainRequest cfg origin ctx0).2).2 =
        (verifyCrossDomainRequest cfg origin ctx0).2) ∧
    (∀ o p, origin = some o → o ≠ "" → corsMatch cfg o = some p →
      (verifyCrossDomainRequest cfg origin ctx0).1 = p ∧
      (verifyCrossDomainRequest cfg origin ctx0).2.headers =
        ctx0.headers ++ [("Access-Control-Allow-Origin", o),
          ("Access-Control-Allow-Credentials", "true")]) ∧
    (∀ o, origin = some o → corsMatch cfg o = none →
      verifyCrossDomainRequest cfg origin ctx0 = ("", ctx0)) ∧
    (origin = none → verifyCrossDomainRequest cfg origin ctx0 = ("", ctx0)) := by
  refine ⟨?_, fun o p ho hne hm => ?_, fun o ho hm => ?_, fun ho => ?_⟩
  · match origin with
    | none => simp [verifyCrossDomainRequest, h0]
    | some o =>
      by_cases he : (o == "") = true
      · simp [verifyCrossDomainRequest, h0, he]
      · have heb : (o == "") = false := by
          cases hb : (o == "") with
          | true => exact absurd hb he
          | false => rfl
        match hm : corsMatch cfg o with
        | none => simp [verifyCrossDomainRequest, h0, heb, hm]
        | some p => simp [verifyCrossDomainRequest, allowCORS, h0, heb, hm]
  · subst ho
    have heb : (o == "") = false := by
      simp only [beq_eq_false_iff_ne, ne_eq]; exact hne
    constructor
    · simp [verifyCrossDomainRequest, h0, heb, hm]
    · simp [verifyCrossDomainRequest, allowCORS, h0, heb, hm]
  · subst ho
    by_cases he : (o == "") = true
    · simp [verifyCrossDomainRequest, h0, he]
    · have heb : (o == "") = false := by
        cases hb : (o == "") with
        | true => exact absurd hb he
        | false => rfl
      simp [verifyCrossDomainRequest, h0, heb, hm]
  · subst ho
    simp [verifyCrossDomainRequest, h0]

/-- Witness for C8 at a one-rule CORS table and a matching origin. -/
theorem c8_cors_idempotent_w :
    ((verifyCrossDomainRequest
        (Config.mk [] [] [] [] 4 [(fun o => o == "https://x", "pfx-")] none none)
        (some "https://x")
        (verifyCrossDomainRequest
          (Config.mk [] [] [] [] 4 [(fun o => o == "https://x", "pfx-")] none none)
          (some "https://x") (RequestCtx.mk none [])).2).1 =
      (verifyCrossDomainRequest
        (Config.mk [] [] [] [] 4 [(fun o => o == "https://x", "pfx-")] none none)
        (some "https://x") (RequestCtx.mk none [])).1) ∧
    (verifyCrossDomainRequest
        (Config.mk [] [] [] [] 4 [(fun o => o == "https://x", "pfx-")] none none)
        (some "https://x") (RequestCtx.mk none [])).2.headers =
      [] ++ [("Access-Control-Allow-Origin", "https://x"),
        ("Access-Control-Allow-Credentials", "true")] := by
  have h := c8_cors_idempotent
    (Config.mk [] [] [] [] 4 [(fun o => o == "https://x", "pfx-")] none none)
    (some "https://x") (RequestCtx.mk none []) rfl
  exact ⟨h.1.1, (h.2.1 "https://x" "pfx-" rfl (by decide) rfl).2⟩

/-- C6: once the username stage accepts, if the effective challenge key
id (after any delimiter-encoded override) is at least 1 and appears in
the compromised-key list, `getAssertion` returns the ";;...no longer
supported" message with no signature, whatever the other inputs. -/
theorem c6_compromised_key_rejected (cfg : Config) (st st1 : Store)
    (ip serverHost data : String) (now : Int) (sign : String → String)
    (userid : String) (ckid : Option Int) (user : User)
    (challenge chalPfx : String) (k : Int)
    (hstage : usernameStage cfg st ip serverHost now userid user =
      (NameStage.accept data, st1))
    (hwf : toID (effectiveChallenge ckid challenge).chal ≠ "")
    (hk : (effectiveChallenge ckid challenge).keyid = some k)
    (hge : 1 ≤ k)
    (hmem : cfg.compromisedkeys.contains k = true) :
    getAssertion cfg st ip serverHost now sign userid ckid user challenge chalPfx =
      (";;This server is using login key " ++ toString k ++
        ", which is no longer supported. Please tell the server operator to update their config.js file.",
        st1) := by
  have hwfb : (toID (effectiveChallenge ckid challenge).chal == "") = false := by
    simp only [beq_eq_false_iff_ne, ne_eq]; exact hwf
  have hlt : keyidLt1 (effectiveChallenge ckid challenge).keyid = false := by
    rw [hk]; simp only [keyidLt1, decide_eq_false_iff_not]; omega
  have hcomp : keyidCompromised cfg (effectiveChallenge ckid challenge).keyid = true := by
    rw [hk]; simpa only [keyidCompromised] using hmem
  have htext : keyidText (effectiveChallenge ckid challenge).keyid = toString k := by
    rw [hk]; rfl
  simp [getAssertion, hstage, signStage, hwfb, hlt, hcomp, htext]

/-- Witness for C6: key 5 is compromised; the challenge "5|abc" overrides
the key id to 5 and the message names it. -/
theorem c6_compromised_key_rejected_w :
    getAssertion (Config.mk [] [] [] [5] 4 [] none none) {} "ip" "host" 0
        (fun _ => "SIG") "alice" none {} "5|abc" "" =
      (";;This server is using login key 5, which is no longer supported. Please tell the server operator to update their config.js file.",
        {}) := by
  have h := c6_compromised_key_rejected (Config.mk [] [] [] [5] 4 [] none none)
    {} {} "ip" "host" "alice,1,0,host" 0 (fun _ => "SIG") "alice" none {} "5|abc" "" 5
    (by decide) (by decide) (by decide) (by decide) (by decide)
  exact h.trans (by decide)

/-- C5: a userid containing the banned term "nigger" always yields a
";;"-message from `getAssertion`; an allowed, unregistered userid of at
most 18 characters containing a letter, presented with the well-formed
2-part challenge "1|abc123" matching the active key id, yields
`<data>;<signature>` with `<data>` containing
`userid,1,<timestamp>,<serverHost>`. -/
theorem c5_assertion_grammar (cfg : Config) (st : Store) (ip serverHost : String)
    (now : Int) (sign : String → String) (ckid : Option Int) (user : User)
    (challenge chalPfx : String) (uidA uidB : String)
    (hA : strIncludes uidA "nigger" = true)
    (hB1 : usersGet st uidB = none)
    (hB2 : isUseridAllowed cfg uidB = true)
    (hB3 : jsStartsWith uidB "guest" = false)
    (hB4 : uidB.length ≤ 18)
    (hB5 : hasLowerLetter uidB = true)
    (hkey : cfg.challengekeyid = 1)
    (hcomp : cfg.compromisedkeys.contains 1 = false)
    (hval : cfg.validateassertion = none)
    (hip : cfg.autolockip.contains ip = false)
    (hlog : user.loggedIn ≠ uidB) :
    jsStartsWith
      (getAssertion cfg st ip serverHost now sign uidA ckid user challenge chalPfx).1
      ";;" = true ∧
    (getAssertion cfg st ip serverHost now sign uidB ckid user "1|abc123" chalPfx).1 =
      chalPfx ++ "abc123" ++ "," ++
          (uidB ++ "," ++ "1" ++ "," ++ toString now ++ "," ++ serverHost) ++ ";" ++
        sign (chalPfx ++ "abc123" ++ "," ++
          (uidB ++ "," ++ "1" ++ "," ++ toString now ++ "," ++ serverHost)) := by
  constructor
  · -- part A: any userid containing "nigger" draws one of the ";;" rejections
    have hAne : uidA ≠ "guest" := by
      intro h; rw [h] at hA; exact absurd hA (by decide)
    have hAg : (uidA == "guest") = false := by
      simp only [beq_eq_false_iff_ne, ne_eq]; exact hAne
    have hAall : isUseridAllowed cfg uidA = false := by
      have hmem : NameTerm.str "nigger" ∈ getBannedNameTerms cfg := by
        unfold getBannedNameTerms; simp
      have hany : (getBannedNameTerms cfg).any (fun t => t.matchesId uidA) = true :=
        List.any_eq_true.mpr ⟨_, hmem, by simpa [NameTerm.matchesId] using hA⟩
      simp [isUseridAllowed, hany]
    by_cases hsg : jsStartsWith uidA "guest" = true
    · have hr : (getAssertion cfg st ip serverHost now sign uidA ckid user challenge chalPfx).1 =
          ";;Your username cannot start with \x27guest\x27." := by
        simp [getAssertion, usernameStage, hAg, hsg]
      rw [hr]; decide
    · have hsgb : jsStartsWith uidA "guest" = false := by
        revert hsg; cases jsStartsWith uidA "guest" <;> simp
      by_cases hlen : 18 < uidA.length
      · have hr : (getAssertion cfg st ip serverHost now sign uidA ckid user challenge chalPfx).1 =
            ";;Your username must be less than 19 characters long." := by
          simp [getAssertion, usernameStage, hAg, hsgb, hlen]
        rw [hr]; decide
      · have hr : (getAssertion cfg st ip serverHost now sign uidA ckid user challenge chalPfx).1 =
            ";;Your username contains disallowed text." := by
          simp [getAssertion, usernameStage, hAg, hsgb, hlen, hAall]
        rw [hr]; decide
  · -- part B: the unregistered-name path with challenge "1|abc123"
    have hBg : (uidB == "guest") = false := by
      cases hb : (uidB == "guest") with
      | false => rfl
      | true =>
        have h2 : uidB = "guest" := by simpa using hb
        rw [h2] at hB3; exact absurd hB3 (by decide)
    have hBlen : ¬ (18 < uidB.length) := by omega
    have hBpos : ¬ (uidB.length < 1) := by
      obtain ⟨c, hc, -⟩ := List.any_eq_true.mp hB5
      have hne : uidB.toList ≠ [] := List.ne_nil_of_mem hc
      have hpos : 0 < uidB.toList.length := List.length_pos.mpr hne
      have hlen2 : uidB.length = uidB.toList.length := rfl
      omega
    have hlogb : (user.loggedIn == uidB) = false := by
      simp only [beq_eq_false_iff_ne, ne_eq]; exact hlog
    have hec : effectiveChallenge ckid "1|abc123" =
        ChallengeParts.mk (some 1) "abc123" none := rfl
    have hch : (toID "abc123" == "") = false := by decide
    have hcomp2 : 1 ∉ cfg.compromisedkeys := by simpa using hcomp
    have hip2 : ip ∉ cfg.autolockip := by simpa using hip
    simp [getAssertion, usernameStage, signStage, hBg, hB3, hBlen, hBpos, hB5, hB2,
      hB1, hip2, hcomp2, hlogb, hec, hch, keyidLt1, keyidCompromised, keyidEqActive,
      keyidText, hkey, hval]

/-- Witness for C5 at the banned name "xnigger" and the fresh name
"alice". -/
theorem c5_assertion_grammar_w :
    jsStartsWith
      (getAssertion (Config.mk [] [] [] [] 1 [] none none) {} "ip" "host" 7
        (fun _ => "SIG") "xnigger" none {} "x" "").1 ";;" = true ∧
    (getAssertion (Config.mk [] [] [] [] 1 [] none none) {} "ip" "host" 7
        (fun _ => "SIG") "alice" none {} "1|abc123" "").1 =
      "" ++ "abc123" ++ "," ++
          ("alice" ++ "," ++ "1" ++ "," ++ toString (7 : Int) ++ "," ++ "host") ++ ";" ++
        "SIG" := by
  exact c5_assertion_grammar (Config.mk [] [] [] [] 1 [] none none) {} "ip" "host" 7
    (fun _ => "SIG") none {} "x" "" "xnigger" "alice"
    (by decide) (by decide) (by decide) (by decide) (by decide) (by decide)
    (by decide) (by decide) rfl (by decide) (by decide)

end LoginServer
